import Mathlib

/-!
Verification of the openclaw session-store and session-lifecycle core.

Shallow embedding of the durable session store (`loadSessionStore`,
`updateSessionStore`, `updateSessionStoreEntry`, `updateLastRoute`,
`withSessionStoreLock`), the session lifecycle (`initSessionState`), the
gateway session management operations (`sessions.reset`, `sessions.delete`),
the thinking-level gate for the `xhigh` tier, and fuzzy model resolution
(`resolveModelDirectiveSelection`).

JavaScript conventions used throughout the embedding:
* optional object properties become `Option` fields; a property that is
  absent and a property that is present with value `undefined` both map to
  `none`, except where object-spread semantics make the distinction
  observable, in which case the spread is translated field list by field
  list (see `spreadOntoStored`);
* `Record<string, SessionEntry>` becomes an insertion-ordered association
  list (`Store`), matching JSON parse/stringify key order;
* `Date.now()` timestamps are integers (milliseconds);
* exceptions become `Except String`.
-/

set_option autoImplicit false

namespace OpenClaw

/-- A persisted session record.  The `SessionEntry` type itself lives in
`config/sessions` (types module), which is not part of the corpus; the field
list is reconstructed from its uses in the corpus (the store, `initSessionState`,
the gateway handlers) and from the spec's data model (§3).  `provider` and
`lastProvider` are the legacy names migrated by `loadSessionStore`. -/
structure SessionEntry where
  sessionId : String
  updatedAt : Int
  systemSent : Option Bool := none
  abortedLastRun : Option Bool := none
  thinkingLevel : Option String := none
  verboseLevel : Option String := none
  reasoningLevel : Option String := none
  elevatedLevel : Option String := none
  ttsAuto : Option String := none
  modelOverride : Option String := none
  providerOverride : Option String := none
  authProfileOverride : Option String := none
  queueMode : Option String := none
  queueDebounceMs : Option Int := none
  queueCap : Option Int := none
  queueDrop : Option String := none
  sendPolicy : Option String := none
  responseUsage : Option String := none
  chatType : Option String := none
  channel : Option String := none
  groupId : Option String := none
  subject : Option String := none
  groupChannel : Option String := none
  room : Option String := none
  space : Option String := none
  displayName : Option String := none
  label : Option String := none
  deliveryContext : Option String := none
  lastChannel : Option String := none
  lastTo : Option String := none
  lastAccountId : Option String := none
  lastThreadId : Option String := none
  sessionFile : Option String := none
  model : Option String := none
  modelProvider : Option String := none
  inputTokens : Option Int := none
  outputTokens : Option Int := none
  totalTokens : Option Int := none
  contextTokens : Option Int := none
  compactionCount : Option Int := none
  memoryFlushCompactionCount : Option Int := none
  memoryFlushAt : Option Int := none
  skillsSnapshot : Option String := none
  spawnedBy : Option String := none
  provider : Option String := none
  lastProvider : Option String := none
  deriving Repr, DecidableEq

/-- The JSON store document `Record<string, SessionEntry>`, as an
insertion-ordered association list (JavaScript objects preserve insertion
order through `JSON.parse`/`JSON.stringify` and `Object.values`). -/
abbrev Store := List (String × SessionEntry)

namespace Store

/-- `store[k]` (property read). -/
def find? (s : Store) (k : String) : Option SessionEntry :=
  match s with
  | [] => none
  | (k0, v) :: rest => if k0 = k then some v else find? rest k

/-- `store[k] = v` (property write): replaces in place when the key exists,
otherwise appends, as JavaScript object assignment does. -/
def set (s : Store) (k : String) (v : SessionEntry) : Store :=
  match s with
  | [] => [(k, v)]
  | (k0, v0) :: rest => if k0 = k then (k0, v) :: rest else (k0, v0) :: set rest k v

/-- `delete store[k]`. -/
def erase (s : Store) (k : String) : Store :=
  match s with
  | [] => []
  | (k0, v0) :: rest => if k0 = k then rest else (k0, v0) :: erase rest k

theorem find?_set_self (s : Store) (k : String) (v : SessionEntry) :
    find? (set s k v) k = some v := by
  induction s with
  | nil => simp [set, find?]
  | cons kv rest ih =>
    by_cases h : kv.1 = k
    · simp [set, find?, h]
    · simp [set, find?, h, ih]

theorem find?_set_ne (s : Store) (k j : String) (v : SessionEntry) (h : j ≠ k) :
    find? (set s k v) j = find? s j := by
  have hkj : k ≠ j := fun he => h he.symm
  induction s with
  | nil => simp [set, find?, hkj]
  | cons kv rest ih =>
    by_cases hk : kv.1 = k
    · subst hk
      simp [set, find?, hkj]
    · simp [set, find?, hk, ih]

theorem find?_not_mem (s : Store) (k : String) (h : k ∉ s.map Prod.fst) :
    find? s k = none := by
  induction s with
  | nil => rfl
  | cons kv rest ih =>
    simp only [List.map_cons, List.mem_cons, not_or] at h
    have hne : kv.1 ≠ k := fun he => h.1 he.symm
    simp [find?, hne, ih h.2]

theorem find?_erase_self (s : Store) (k : String)
    (hnd : (s.map Prod.fst).Nodup) : find? (erase s k) k = none := by
  induction s with
  | nil => rfl
  | cons kv rest ih =>
    simp only [List.map_cons, List.nodup_cons] at hnd
    by_cases hk : kv.1 = k
    · subst hk
      simp only [erase, if_pos rfl]
      exact find?_not_mem rest kv.1 hnd.1
    · simp [erase, find?, hk, ih hnd.2]

theorem find?_erase_ne (s : Store) (k j : String) (h : j ≠ k) :
    find? (erase s k) j = find? s j := by
  have hkj : k ≠ j := fun he => h he.symm
  induction s with
  | nil => simp [erase, find?]
  | cons kv rest ih =>
    by_cases hk : kv.1 = k
    · subst hk
      simp [erase, find?, hkj]
    · simp [erase, find?, hk, ih]

end Store

/-! ## JavaScript string primitives

Computable (kernel-reducible) models of the JavaScript string methods the
sources use, over the character list underlying `String`. -/

def jsToLower (s : String) : String := String.mk (s.data.map Char.toLower)

def isWhitespaceChar (c : Char) : Bool :=
  c = ' ' ∨ c = '\t' ∨ c = '\n' ∨ c = '\r' ∨ c = '\x0b' ∨ c = '\x0c'

/-- `s.trimStart()`. -/
def jsTrimLeft (s : String) : String := String.mk (s.data.dropWhile isWhitespaceChar)

/-- `s.trimEnd()`. -/
def jsTrimRight (s : String) : String :=
  String.mk ((s.data.reverse.dropWhile isWhitespaceChar).reverse)

/-- `s.trim()`. -/
def jsTrim (s : String) : String := jsTrimLeft (jsTrimRight s)

/-- `s.startsWith(p)`. -/
def jsStartsWith (s p : String) : Bool := p.data.isPrefixOf s.data

/-- `s.slice(n)`. -/
def jsDrop (s : String) (n : Nat) : String := String.mk (s.data.drop n)

/-! ## Store file, read cache and `loadSessionStore` (session store module) -/

/-- Contents of the store file at a path, as observed by `loadSessionStore`:
the file may be absent (`readFileSync` throws ENOENT), hold bytes that do not
parse to an object (`JSON5.parse` throws, or the parsed value is not an
object), or hold a JSON document for a record map. -/
inductive FileContent
  | absent
  | corrupt
  | doc (store : Store)
  deriving Repr, DecidableEq

/-- The best-effort legacy migration performed by `loadSessionStore`:
`provider` is renamed to `channel` only when `channel` is not already a
string, and likewise `lastProvider` to `lastChannel`. -/
def migrateEntry (e : SessionEntry) : SessionEntry :=
  let e1 :=
    match e.channel, e.provider with
    | none, some p => { e with channel := some p, provider := none }
    | _, _ => e
  match e1.lastChannel, e1.lastProvider with
  | none, some p => { e1 with lastChannel := some p, lastProvider := none }
  | _, _ => e1

/-- The `try { readFileSync; JSON5.parse } catch {}` block: a missing or
unparseable file leaves the store empty. -/
def parseStoreFile : FileContent → Store
  | .absent => []
  | .corrupt => []
  | .doc s => s

/-- Disk load: parse, then migrate every entry in place
(`for (const entry of Object.values(store))`). -/
def loadSessionStoreDisk (f : FileContent) : Store :=
  (parseStoreFile f).map (fun kv => (kv.1, migrateEntry kv.2))

/-- One `SESSION_STORE_CACHE` entry (store copy, load time, file mtime). -/
structure CacheEntry where
  store : Store
  loadedAt : Int
  mtimeMs : Option Int
  deriving Repr, DecidableEq

/-- The state `loadSessionStore`/`updateSessionStore` interact with, for one
store path: the file, its mtime (`getFileMtimeMs`, `none` when absent), the
process-local read cache, whether the sibling `<path>.lock` marker exists,
and the clock.  `cacheEnabled`/`cacheTtlMs` stand for
`isSessionStoreCacheEnabled()`/`getSessionStoreTtl()`, whose helpers
(`cache-utils`) are outside the corpus; per the spec the cache is a
short-TTL read cache (default tens of seconds) that callers may bypass. -/
structure FsState where
  file : FileContent
  mtimeMs : Option Int
  cache : Option CacheEntry
  lockHeld : Bool
  now : Int
  cacheEnabled : Bool
  cacheTtlMs : Int
  deriving Repr, DecidableEq

/-- Disk load plus (when the cache is in use) populating the cache, i.e. the
tail of `loadSessionStore` after a cache miss. -/
def loadFromDiskAndCache (st : FsState) (useCache : Bool) : Store × FsState :=
  let store := loadSessionStoreDisk st.file
  if useCache then
    (store, { st with cache := some { store := store, loadedAt := st.now, mtimeMs := st.mtimeMs } })
  else
    (store, st)

/-- `loadSessionStore(storePath, opts)`.  With the cache enabled and not
skipped, a cache entry within its TTL whose recorded mtime still equals the
file's current mtime is returned as-is; on an mtime mismatch the entry is
invalidated and the file re-read; with `skipCache` the cache is neither read
nor written. -/
def loadSessionStore (st : FsState) (skipCache : Bool) : Store × FsState :=
  if !skipCache && st.cacheEnabled then
    match st.cache with
    | some cached =>
      if st.now - cached.loadedAt ≤ st.cacheTtlMs then
        if st.mtimeMs = cached.mtimeMs then
          (cached.store, st)
        else
          loadFromDiskAndCache { st with cache := none } true
      else
        loadFromDiskAndCache st true
    | none => loadFromDiskAndCache st true
  else
    loadFromDiskAndCache st false

/-- `saveSessionStoreUnlocked`: invalidates the cache, then persists the map
(temp-file-then-rename on POSIX, in-place write under the lock on Windows —
either way the file now holds the serialized map and a fresh mtime). -/
def saveSessionStoreUnlocked (st : FsState) (store : Store) : FsState :=
  { st with cache := none, file := .doc store, mtimeMs := some st.now }

/-! ## `withSessionStoreLock` and the locked mutators -/

/-- `withSessionStoreLock(storePath, fn)`, single-process view: the marker
file is absent unless an update on this path is mid-flight, so the first
`open(lockPath, "wx")` succeeds exactly when the marker is absent; the body
then runs and the `finally` clause removes the marker even when the body
throws.  A marker that is already held surfaces as the loop's timeout error
(the contended polling/eviction loop itself is embedded faithfully as
`acquireLockLoop` below and analysed separately). -/
def withSessionStoreLock {α : Type} (st : FsState)
    (body : FsState → Except String α × FsState) : Except String α × FsState :=
  if st.lockHeld then
    (.error "timeout acquiring session store lock", st)
  else
    let r := body { st with lockHeld := true }
    (r.1, { r.2 with lockHeld := false })

/-- `updateSessionStore(storePath, mutator)`: under the lock, re-read the
file bypassing the cache, run the mutator, persist, return its result.  The
mutator may throw (`Except.error`), in which case nothing is persisted and
the error propagates (the lock is still released by the `finally`). -/
def updateSessionStore {α : Type} (st : FsState)
    (mutator : Store → Except String (α × Store)) : Except String α × FsState :=
  withSessionStoreLock st (fun st0 =>
    let loaded := loadSessionStore st0 true
    match mutator loaded.1 with
    | .error e => (.error e, loaded.2)
    | .ok (a, store2) => (.ok a, saveSessionStoreUnlocked loaded.2 store2))

/-- A `Partial<SessionEntry>` patch as handed to `mergeSessionEntry`.  An
outer `some` means the property is present on the patch object; the inner
`Option` is the property's (possibly `undefined`) value.  Only the fields
patched by the corpus call sites are represented. -/
structure SessionPatch where
  updatedAt : Option Int := none
  thinkingLevel : Option (Option String) := none
  modelOverride : Option (Option String) := none
  providerOverride : Option (Option String) := none
  lastChannel : Option (Option String) := none
  lastTo : Option (Option String) := none
  lastAccountId : Option (Option String) := none
  deriving Repr, DecidableEq

/-- Modelled from the spec: `mergeSessionEntry` is defined in the sessions
types module, which is not in the corpus.  Per §4.3 step 6 every store write
shallow-merges onto the existing record; properties present on the patch
replace the stored value (including replacement by `undefined`), all other
fields are kept.  A missing existing record merges onto a blank record. -/
def mergeSessionEntry (existing : Option SessionEntry) (p : SessionPatch) : SessionEntry :=
  let e := existing.getD { sessionId := "", updatedAt := 0 }
  { e with
    updatedAt := p.updatedAt.getD e.updatedAt
    thinkingLevel := p.thinkingLevel.getD e.thinkingLevel
    modelOverride := p.modelOverride.getD e.modelOverride
    providerOverride := p.providerOverride.getD e.providerOverride
    lastChannel := p.lastChannel.getD e.lastChannel
    lastTo := p.lastTo.getD e.lastTo
    lastAccountId := p.lastAccountId.getD e.lastAccountId }

/-- `updateSessionStoreEntry({storePath, sessionKey, update})`: under the
lock, load the store (NOTE: the source calls `loadSessionStore(storePath)`
with no `skipCache` option, so this read goes through the read cache), look
up the key, apply the `update` callback; `null` from the callback returns
the existing entry without writing; otherwise the patch is merged and the
store persisted. -/
def updateSessionStoreEntry (st : FsState) (sessionKey : String)
    (update : SessionEntry → Except String (Option SessionPatch)) :
    Except String (Option SessionEntry) × FsState :=
  withSessionStoreLock st (fun st0 =>
    let loaded := loadSessionStore st0 false
    match Store.find? loaded.1 sessionKey with
    | none => (.ok none, loaded.2)
    | some existing =>
      match update existing with
      | .error e => (.error e, loaded.2)
      | .ok none => (.ok (some existing), loaded.2)
      | .ok (some patch) =>
        let next := mergeSessionEntry (some existing) patch
        let store2 := Store.set loaded.1 sessionKey next
        (.ok (some next), saveSessionStoreUnlocked loaded.2 store2))

/-- The record `updateLastRoute({storePath, sessionKey, channel, to,
accountId})` writes: the last-route patch literal (`updatedAt`,
`lastChannel`, `lastTo`, `lastAccountId` — all four properties present on
it) merged onto the entry currently under the key. -/
def lastRouteNext (store : Store) (sessionKey : String)
    (channel toDest accountId : Option String) (now : Int) : SessionEntry :=
  let existing := Store.find? store sessionKey
  let trimmedTo := jsTrim (toDest.getD "")
  let trimmedAccount := jsTrim (accountId.getD "")
  let patch : SessionPatch :=
    { updatedAt := some (max ((existing.map (·.updatedAt)).getD 0) now)
      lastChannel := some channel
      lastTo := some (if trimmedTo ≠ "" then some trimmedTo else none)
      lastAccountId := some (if trimmedAccount ≠ "" then some trimmedAccount
          else (existing.bind (·.lastAccountId))) }
  mergeSessionEntry existing patch

/-- `updateLastRoute`: under the lock, load the store (again through the
cache — the source passes no `skipCache`), merge the last-route patch onto
the (possibly missing) entry and persist. -/
def updateLastRoute (st : FsState) (sessionKey : String)
    (channel : Option String) (toDest : Option String) (accountId : Option String) :
    Except String SessionEntry × FsState :=
  withSessionStoreLock st (fun st0 =>
    let loaded := loadSessionStore st0 false
    let next := lastRouteNext loaded.1 sessionKey channel toDest accountId loaded.2.now
    let store2 := Store.set loaded.1 sessionKey next
    (.ok next, saveSessionStoreUnlocked loaded.2 store2))

/-! ## The lock acquisition loop (contended case) -/

/-- What one iteration of the `withSessionStoreLock` acquisition loop
observes: `open(lockPath, "wx")` succeeds (`free`), fails with ENOENT
because the store directory vanished (`dirMissing`), or fails with EEXIST —
in which case the staleness probe either reads the marker's mtime
(`held mtimeMs`) or itself fails because the marker vanished
(`heldStatFailed`, swallowed by the empty catch). -/
inductive LockObs
  | free
  | dirMissing
  | held (mtimeMs : Int)
  | heldStatFailed
  deriving Repr, DecidableEq

/-- Outcome of the acquisition loop: the marker was created after
`elapsedMs` of waiting, or the timeout error was thrown at `elapsedMs`. -/
inductive AcquireResult
  | acquired (elapsedMs : Int)
  | timeout (elapsedMs : Int)
  | outOfFuel
  deriving Repr, DecidableEq

/-- The option defaults of `withSessionStoreLock`:
`timeoutMs ?? 10_000`, `pollIntervalMs ?? 25`, `staleMs ?? 30_000`.
All internal callers pass no options, so these are always the values used. -/
structure LockOpts where
  timeoutMs : Int := 10000
  pollIntervalMs : Int := 25
  staleMs : Int := 30000
  deriving Repr, DecidableEq

/-- The `while (true)` acquisition loop of `withSessionStoreLock`, fuelled.
`env n` is what attempt `n` observes; `t` is the elapsed wait
(`Date.now() = startedAt + t`).  On EEXIST the timeout check
(`now - startedAt > timeoutMs`) runs first; a marker older than `staleMs`
is unlinked and the loop retries immediately; otherwise the loop sleeps
`pollIntervalMs` and retries.  The ENOENT branch recreates the directory
and sleeps without any timeout check. -/
def acquireLockLoop (opts : LockOpts) (env : Nat → LockObs) (startedAt : Int) :
    Nat → Nat → Int → AcquireResult
  | 0, _, _ => .outOfFuel
  | fuel + 1, n, t =>
    match env n with
    | .free => .acquired t
    | .dirMissing =>
      acquireLockLoop opts env startedAt fuel (n + 1) (t + opts.pollIntervalMs)
    | .held m =>
      if t > opts.timeoutMs then
        .timeout t
      else if startedAt + t - m > opts.staleMs then
        acquireLockLoop opts env startedAt fuel (n + 1) t
      else
        acquireLockLoop opts env startedAt fuel (n + 1) (t + opts.pollIntervalMs)
    | .heldStatFailed =>
      if t > opts.timeoutMs then
        .timeout t
      else
        acquireLockLoop opts env startedAt fuel (n + 1) (t + opts.pollIntervalMs)

/-! ## Session lifecycle: `initSessionState` (auto-reply/reply/session.ts) -/

/-- Result of the reset-trigger scan at the top of `initSessionState`. -/
structure ResetScan where
  isNewSession : Bool
  bodyStripped : Option String
  resetTriggered : Bool
  deriving Repr, DecidableEq

/-- The `for (const trigger of resetTriggers)` loop: empty triggers are
skipped, an unauthorized sender breaks out immediately, matching is
case-insensitive against both the trimmed body and the mention-stripped
body, and a prefix match strips the trigger from the mention-stripped body.
`trimmedBody` and `strippedForReset` arrive from `stripStructuralPrefixes` /
`stripMentions` (mentions module, outside the corpus). -/
def scanResetTriggers (resetAuthorized : Bool) (trimmedBody strippedForReset : String) :
    List String → ResetScan
  | [] => { isNewSession := false, bodyStripped := none, resetTriggered := false }
  | trigger :: rest =>
    if trigger = "" then
      scanResetTriggers resetAuthorized trimmedBody strippedForReset rest
    else if !resetAuthorized then
      { isNewSession := false, bodyStripped := none, resetTriggered := false }
    else
      let triggerLower := jsToLower trigger
      let trimmedLower := jsToLower trimmedBody
      let strippedLower := jsToLower strippedForReset
      if trimmedLower = triggerLower ∨ strippedLower = triggerLower then
        { isNewSession := true, bodyStripped := some "", resetTriggered := true }
      else if jsStartsWith trimmedLower (triggerLower ++ " ") ∨
          jsStartsWith strippedLower (triggerLower ++ " ") then
        { isNewSession := true,
          bodyStripped := some (jsTrimLeft (jsDrop strippedForReset trigger.length)),
          resetTriggered := true }
      else
        scanResetTriggers resetAuthorized trimmedBody strippedForReset rest

/-- Modelled from the spec: `evaluateSessionFreshness` lives in
`config/sessions`, outside the corpus.  Per §4.3 step 2 a record is fresh
iff `now - updatedAt <= idleThreshold` for the resolved reset policy; the
corpus's other `initSessionState` variant carries the identical inline test
`Date.now() - entry.updatedAt <= idleMs`. -/
def evaluateSessionFreshness (updatedAt now thresholdMs : Int) : Bool :=
  now - updatedAt ≤ thresholdMs

/-- The fresh-vs-mint decision (`if (!isNewSession && freshEntry)`):
a fresh, untriggered session reuses the stored id, flags and persisted
override levels; otherwise a new UUID is minted and the flags cleared. -/
structure InitDecision where
  sessionId : String
  isNewSession : Bool
  systemSent : Bool
  abortedLastRun : Bool
  persistedThinking : Option String := none
  persistedVerbose : Option String := none
  persistedReasoning : Option String := none
  persistedTtsAuto : Option String := none
  persistedModelOverride : Option String := none
  persistedProviderOverride : Option String := none
  deriving Repr, DecidableEq

def decideSession (entry? : Option SessionEntry) (scanIsNew fresh : Bool)
    (newUuid : String) : InitDecision :=
  match entry?, (!scanIsNew && fresh : Bool) with
  | some entry, true =>
    { sessionId := entry.sessionId
      isNewSession := false
      systemSent := entry.systemSent.getD false
      abortedLastRun := entry.abortedLastRun.getD false
      persistedThinking := entry.thinkingLevel
      persistedVerbose := entry.verboseLevel
      persistedReasoning := entry.reasoningLevel
      persistedTtsAuto := entry.ttsAuto
      persistedModelOverride := entry.modelOverride
      persistedProviderOverride := entry.providerOverride }
  | _, _ =>
    { sessionId := newUuid
      isNewSession := true
      systemSent := false
      abortedLastRun := false }

/-- Modelled from the spec: `deriveSessionMetaPatch` (config/sessions,
outside the corpus) derives presentation/grouping metadata for the record —
per §3 these are `chatType`/`channel`/`subject`/`room`/`space`/`displayName`
and the group identifiers; it never touches identity, flags, counters or
user override fields. -/
structure MetaPatch where
  chatType : Option String := none
  channel : Option String := none
  groupId : Option String := none
  subject : Option String := none
  groupChannel : Option String := none
  room : Option String := none
  space : Option String := none
  displayName : Option String := none
  deriving Repr, DecidableEq

/-- `sessionEntry = { ...sessionEntry, ...metaPatch }`: properties present
on the patch replace the built entry's. -/
def applyMetaPatch (e : SessionEntry) (p : MetaPatch) : SessionEntry :=
  { e with
    chatType := p.chatType <|> e.chatType
    channel := p.channel <|> e.channel
    groupId := p.groupId <|> e.groupId
    subject := p.subject <|> e.subject
    groupChannel := p.groupChannel <|> e.groupChannel
    room := p.room <|> e.room
    space := p.space <|> e.space
    displayName := p.displayName <|> e.displayName }

/-- JavaScript `a || b` over possibly-absent strings: an absent or empty
left operand falls through to the right. -/
def orFalsy (a b : Option String) : Option String :=
  match a with
  | some s => if s = "" then b else some s
  | none => b

/-- The final `store[sessionKey] = { ...store[sessionKey], ...sessionEntry }`
merge (session.ts lines 658 and 661).  JavaScript spread copies every own
property of `sessionEntry`, including properties whose value is `undefined`,
and such properties OVERWRITE the stored value.

When the turn produced a new session (`baseEntry === undefined`), the
properties of `sessionEntry` are exactly the keys of the object literal at
lines 556-588, the fields a meta patch may add (of which only `room` is not
already in the literal), and the fields assigned afterwards (`chatType`
default, `displayName` from a thread label, `sessionFile`,
`compactionCount`, `memoryFlushCompactionCount`, `memoryFlushAt`); every
other field keeps the stored value.

When the session is fresh, `sessionEntry` additionally spreads `baseEntry`,
which in this single-process embedding is the same object as
`store[sessionKey]`, so the merge result is `sessionEntry` itself. -/
def spreadOntoStored (old se : SessionEntry) (newSession : Bool) : SessionEntry :=
  if newSession then
    { old with
      sessionId := se.sessionId
      updatedAt := se.updatedAt
      systemSent := se.systemSent
      abortedLastRun := se.abortedLastRun
      thinkingLevel := se.thinkingLevel
      verboseLevel := se.verboseLevel
      reasoningLevel := se.reasoningLevel
      ttsAuto := se.ttsAuto
      responseUsage := se.responseUsage
      modelOverride := se.modelOverride
      providerOverride := se.providerOverride
      sendPolicy := se.sendPolicy
      queueMode := se.queueMode
      queueDebounceMs := se.queueDebounceMs
      queueCap := se.queueCap
      queueDrop := se.queueDrop
      displayName := se.displayName
      chatType := se.chatType
      channel := se.channel
      groupId := se.groupId
      subject := se.subject
      groupChannel := se.groupChannel
      space := se.space
      room := se.room <|> old.room
      deliveryContext := se.deliveryContext
      lastChannel := se.lastChannel
      lastTo := se.lastTo
      lastAccountId := se.lastAccountId
      lastThreadId := se.lastThreadId
      sessionFile := se.sessionFile
      compactionCount := se.compactionCount
      memoryFlushCompactionCount := se.memoryFlushCompactionCount
      memoryFlushAt := se.memoryFlushAt }
  else
    se

/-- Inputs of one `initSessionState` turn that are produced by collaborators
outside the corpus: the resolved session key (`resolveSessionKey`), the
authorization flag (`resolveCommandAuthorization`), the body forms
(`stripStructuralPrefixes`/`stripMentions`), the reset policy threshold
(`resolveSessionResetPolicy`), the minted UUID (`crypto.randomUUID`), the
delivery-context fields (`normalizeSessionDeliveryFields`, treated as the
identity normalization of the raw channel/to/account/thread values), the
meta patch, the parent key, and the file-system outcomes of fork/merge and
of `resolveSessionTranscriptPath`. -/
structure InitParams where
  resetTriggers : List String
  resetAuthorized : Bool
  trimmedBody : String
  strippedForReset : String
  sessionKey : String
  idleThresholdMs : Int
  newUuid : String
  now : Int
  ctxOriginatingChannel : Option String := none
  ctxOriginatingTo : Option String := none
  ctxTo : Option String := none
  ctxAccountId : Option String := none
  ctxThreadId : Option String := none
  deliveryContext : Option String := none
  metaPatch : Option MetaPatch := none
  threadLabel : Option String := none
  parentSessionKey : Option String := none
  forkResult : Option (String × String) := none
  mergeResult : Option (String × String) := none
  defaultSessionFile : String := ""
  deriving Repr, DecidableEq

structure InitOutcome where
  store : Store
  entry : SessionEntry
  sessionId : String
  isNewSession : Bool
  resetTriggered : Bool
  deriving Repr, DecidableEq

/-- `initSessionState` (session.ts lines 461-662), single-process view: the
store loaded before the lock and the store re-read inside
`updateSessionStore`'s lock are the same map `store0`. -/
def initSessionTransition (p : InitParams) (store0 : Store) : InitOutcome :=
  let scan := scanResetTriggers p.resetAuthorized p.trimmedBody p.strippedForReset p.resetTriggers
  let entry? := Store.find? store0 p.sessionKey
  let fresh :=
    match entry? with
    | some e => evaluateSessionFreshness e.updatedAt p.now p.idleThresholdMs
    | none => false
  let d := decideSession entry? scan.isNewSession fresh p.newUuid
  let base? := if d.isNewSession then none else entry?
  let b := base?.getD { sessionId := "", updatedAt := 0 }
  let lastChannel := orFalsy p.ctxOriginatingChannel b.lastChannel
  let lastTo := orFalsy p.ctxOriginatingTo (orFalsy p.ctxTo b.lastTo)
  let lastAccountId := orFalsy p.ctxAccountId b.lastAccountId
  let lastThreadId := orFalsy p.ctxThreadId b.lastThreadId
  let se0 : SessionEntry :=
    { b with
      sessionId := d.sessionId
      updatedAt := p.now
      systemSent := some d.systemSent
      abortedLastRun := some d.abortedLastRun
      thinkingLevel := d.persistedThinking <|> b.thinkingLevel
      verboseLevel := d.persistedVerbose <|> b.verboseLevel
      reasoningLevel := d.persistedReasoning <|> b.reasoningLevel
      ttsAuto := d.persistedTtsAuto <|> b.ttsAuto
      responseUsage := b.responseUsage
      modelOverride := d.persistedModelOverride <|> b.modelOverride
      providerOverride := d.persistedProviderOverride <|> b.providerOverride
      sendPolicy := b.sendPolicy
      queueMode := b.queueMode
      queueDebounceMs := b.queueDebounceMs
      queueCap := b.queueCap
      queueDrop := b.queueDrop
      displayName := b.displayName
      chatType := b.chatType
      channel := b.channel
      groupId := b.groupId
      subject := b.subject
      groupChannel := b.groupChannel
      space := b.space
      deliveryContext := p.deliveryContext
      lastChannel := lastChannel
      lastTo := lastTo
      lastAccountId := lastAccountId
      lastThreadId := lastThreadId }
  let se1 :=
    match p.metaPatch with
    | some mp => applyMetaPatch se0 mp
    | none => se0
  let se2 := if (se1.chatType.getD "") = "" then { se1 with chatType := some "direct" } else se1
  let se3 :=
    match p.threadLabel with
    | some l => if jsTrim l = "" then se2 else { se2 with displayName := some (jsTrim l) }
    | none => se2
  let parentOk : Bool :=
    match p.parentSessionKey with
    | some pk => (decide (pk ≠ p.sessionKey)) && (Store.find? store0 pk).isSome
    | none => false
  let forkStep :=
    if d.isNewSession && parentOk then
      match p.forkResult with
      | some fr => (fr.1, { se3 with sessionId := fr.1, sessionFile := some fr.2 })
      | none => (d.sessionId, se3)
    else (d.sessionId, se3)
  let mergeStep :=
    if !d.isNewSession && parentOk then
      match p.mergeResult with
      | some mr => (mr.1, { forkStep.2 with sessionId := mr.1, sessionFile := some mr.2 })
      | none => forkStep
    else forkStep
  let sid := mergeStep.1
  let se4 := mergeStep.2
  let se5 :=
    if se4.sessionFile.isNone then { se4 with sessionFile := some p.defaultSessionFile } else se4
  let se6 :=
    if d.isNewSession then
      { se5 with
        compactionCount := some 0
        memoryFlushCompactionCount := none
        memoryFlushAt := none }
    else se5
  let merged :=
    match Store.find? store0 p.sessionKey with
    | some old => spreadOntoStored old se6 d.isNewSession
    | none => se6
  { store := Store.set store0 p.sessionKey merged
    entry := se6
    sessionId := sid
    isNewSession := d.isNewSession
    resetTriggered := scan.resetTriggered }

/-! ## Gateway sessions handlers: `sessions.reset` and `sessions.delete` -/

/-- A gateway bridge method outcome: a validation error
(`INVALID_REQUEST`), an operational failure, or a success payload. -/
inductive BridgeOutcome (α : Type)
  | invalid (message : String)
  | failed (message : String)
  | ok (payload : α)
  deriving Repr, DecidableEq

/-- The legacy-key canonicalization prologue shared by the gateway sessions
mutators: when an entry lives under a non-primary candidate key and the
primary key is unoccupied, move it to the primary key and drop the old key. -/
def canonicalizeStoreKeys (storeKeys : List String) (key : String) (store : Store) :
    String × Store :=
  let primaryKey := (storeKeys.head?).getD key
  match storeKeys.find? (fun c => (Store.find? store c).isSome) with
  | some existingKey =>
    if existingKey ≠ primaryKey ∧ (Store.find? store primaryKey).isNone then
      (primaryKey,
        Store.erase (Store.set store primaryKey ((Store.find? store existingKey).getD
          { sessionId := "", updatedAt := 0 })) existingKey)
    else (primaryKey, store)
  | none => (primaryKey, store)

/-- The `sessions.reset` mutator (gateway sessions handler): replace the
entry under the primary key by a brand-new record that keeps only the listed
fields of the old entry.  `modelOverride`, `providerOverride` and the other
unlisted fields are NOT part of the replacement literal. -/
def sessionsResetMutator (storeKeys : List String) (key newUuid : String) (now : Int)
    (store : Store) : SessionEntry × Store :=
  let cs := canonicalizeStoreKeys storeKeys key store
  let primaryKey := cs.1
  let store1 := cs.2
  let entry? := Store.find? store1 primaryKey
  let nextEntry : SessionEntry :=
    { sessionId := newUuid
      updatedAt := now
      systemSent := some false
      abortedLastRun := some false
      thinkingLevel := entry?.bind (·.thinkingLevel)
      verboseLevel := entry?.bind (·.verboseLevel)
      reasoningLevel := entry?.bind (·.reasoningLevel)
      model := entry?.bind (·.model)
      contextTokens := entry?.bind (·.contextTokens)
      sendPolicy := entry?.bind (·.sendPolicy)
      label := entry?.bind (·.label)
      displayName := entry?.bind (·.displayName)
      chatType := entry?.bind (·.chatType)
      channel := entry?.bind (·.channel)
      subject := entry?.bind (·.subject)
      room := entry?.bind (·.room)
      space := entry?.bind (·.space)
      lastChannel := entry?.bind (·.lastChannel)
      lastTo := entry?.bind (·.lastTo)
      skillsSnapshot := entry?.bind (·.skillsSnapshot) }
  (nextEntry, Store.set store1 primaryKey nextEntry)

/-- The `sessions.reset` bridge method: validate the key, then run the reset
mutator through `updateSessionStore`.  `storeKeys` comes from
`resolveGatewaySessionStoreTarget`. -/
def handleSessionsReset (st : FsState) (storeKeys : List String) (key newUuid : String) :
    BridgeOutcome SessionEntry × FsState :=
  let trimmedKey := jsTrim key
  if trimmedKey = "" then (.invalid "key required", st)
  else
    let r := updateSessionStore st (fun store =>
      .ok (sessionsResetMutator storeKeys trimmedKey newUuid st.now store))
    (match r.1 with
     | .ok e => .ok e
     | .error msg => .failed msg, r.2)

/-- The `sessions.delete` store mutator: canonicalize, record whether the
primary entry existed, and delete it. -/
def sessionsDeleteMutator (storeKeys : List String) (key : String) (store : Store) :
    (Bool × Option SessionEntry) × Store :=
  let cs := canonicalizeStoreKeys storeKeys key store
  let primaryKey := cs.1
  let store1 := cs.2
  let entryToDelete := Store.find? store1 primaryKey
  let existed := entryToDelete.isSome
  ((existed, entryToDelete), if existed then Store.erase store1 primaryKey else store1)

/-- The `sessions.delete` bridge method: an empty key and the configured
main session key are rejected before any store access; an active embedded
run that does not end within the wait window aborts the operation; otherwise
the delete mutator runs through `updateSessionStore`.  `mainKey` stands for
`resolveMainSessionKeyFromConfig()` (config/sessions, outside the corpus:
per the spec it returns the configured main session key); the read-only
`loadSessionEntry` preamble and the best-effort transcript archival touch
only transcript files, never the store map. -/
def handleSessionsDelete (st : FsState) (mainKey : String) (storeKeys : List String)
    (key : String) (runStillActiveAfterWait : Bool) :
    BridgeOutcome (Bool × Option SessionEntry) × FsState :=
  let trimmedKey := jsTrim key
  if trimmedKey = "" then (.invalid "key required", st)
  else if trimmedKey = mainKey then
    (.invalid ("Cannot delete the main session (" ++ mainKey ++ ")."), st)
  else if runStillActiveAfterWait then
    (.failed ("Session " ++ trimmedKey ++ " is still active; try again in a moment."), st)
  else
    let r := updateSessionStore st (fun store =>
      .ok (sessionsDeleteMutator storeKeys trimmedKey store))
    (match r.1 with
     | .ok payload => .ok payload
     | .error msg => .failed msg, r.2)

/-! ## The `xhigh` thinking-tier gate -/

/-- Common shape of the two `xhigh` gates: the optional text payload this
step returns to the user, whether the agent turn still runs afterwards, the
effective thinking level, the (possibly mutated) session entry and
in-memory store, and whether the mutation was written through
`updateSessionStore`. -/
structure XhighGateResult where
  userText : Option String
  turnContinues : Bool
  thinkLevel : Option String
  entry? : Option SessionEntry
  store : Store
  persisted : Bool
  deriving Repr, DecidableEq

/-- The `xhigh` gate of the message flow (`runPreparedReply`, also present
verbatim in the CLI agent command): when the effective level is `xhigh` and
the resolved provider/model does not support it, an explicit `/think`
directive is rejected with an error payload and nothing is persisted;
otherwise the level silently becomes `high`, and when the session record
itself held `xhigh` the downgrade is written to the record and persisted.
`supportsXHigh` stands for `supportsXHighThinking(provider, model)` and
`hint` for `formatXHighModelHint()` (thinking module, not in the corpus). -/
def xhighMessageStep (supportsXHigh : Bool) (hint : String)
    (resolvedThinkLevel : Option String) (explicitThink : Bool)
    (entry? : Option SessionEntry) (hasSessionStore : Bool) (sessionKey : String)
    (hasStorePath : Bool) (now : Int) (store : Store) : XhighGateResult :=
  if resolvedThinkLevel = some "xhigh" ∧ ¬supportsXHigh then
    if explicitThink then
      { userText := some ("Thinking level \"xhigh\" is only supported for " ++ hint ++
          ". Use /think high or switch to one of those models.")
        turnContinues := false
        thinkLevel := resolvedThinkLevel
        entry? := entry?
        store := store
        persisted := false }
    else
      match entry? with
      | some e =>
        if hasSessionStore ∧ sessionKey ≠ "" ∧ e.thinkingLevel = some "xhigh" then
          let e2 := { e with thinkingLevel := some "high", updatedAt := now }
          { userText := none
            turnContinues := true
            thinkLevel := some "high"
            entry? := some e2
            store := Store.set store sessionKey e2
            persisted := hasStorePath }
        else
          { userText := none, turnContinues := true, thinkLevel := some "high"
            entry? := entry?, store := store, persisted := false }
      | none =>
        { userText := none, turnContinues := true, thinkLevel := some "high"
          entry? := entry?, store := store, persisted := false }
  else
    { userText := none, turnContinues := true, thinkLevel := resolvedThinkLevel
      entry? := entry?, store := store, persisted := false }

/-- The thinking-level branches of the directive-only flow
(`handleDirectiveOnly`): an explicit `xhigh` directive on an unsupported
model is rejected before the session-mutation block; with no explicit think
directive, a session whose effective level is `xhigh` on an unsupported
model is downgraded to `high`, the change persisted, and a notice appended
to the acknowledgement text.  The other directive kinds handled by the same
function (verbose/reasoning/elevated/model/queue) live in independent
branches and are elided. -/
def xhighDirectiveStep (supportsXHigh : Bool) (hint : String)
    (hasThinkDirective : Bool) (directiveThinkLevel : Option String)
    (currentThinkLevel : Option String)
    (entry? : Option SessionEntry) (hasSessionStore : Bool) (sessionKey : String)
    (hasStorePath : Bool) (now : Int) (store : Store)
    (providerLabel modelLabel : String) : XhighGateResult :=
  if hasThinkDirective ∧ directiveThinkLevel = some "xhigh" ∧ ¬supportsXHigh then
    { userText := some ("Thinking level \"xhigh\" is only supported for " ++ hint ++ ".")
      turnContinues := false
      thinkLevel := currentThinkLevel
      entry? := entry?
      store := store
      persisted := false }
  else
    let nextThink :=
      if hasThinkDirective then directiveThinkLevel
      else (entry?.bind (·.thinkingLevel)) <|> currentThinkLevel
    let shouldDowngrade : Bool :=
      !hasThinkDirective && (nextThink == some "xhigh") && !supportsXHigh
    let mutated :=
      match entry? with
      | some e =>
        if hasSessionStore ∧ sessionKey ≠ "" then
          let e1 :=
            if hasThinkDirective then
              match directiveThinkLevel with
              | some lv =>
                if lv = "off" then { e with thinkingLevel := none }
                else { e with thinkingLevel := some lv }
              | none => e
            else e
          let e2 := if shouldDowngrade then { e1 with thinkingLevel := some "high" } else e1
          let e3 := { e2 with updatedAt := now }
          some e3
        else none
      | none => none
    let parts : List String :=
      (if hasThinkDirective then
        match directiveThinkLevel with
        | some lv =>
          [if lv = "off" then "Thinking disabled." else "Thinking level set to " ++ lv ++ "."]
        | none => []
      else []) ++
      (if shouldDowngrade then
        ["Thinking level set to high (xhigh not supported for " ++ providerLabel ++ "/" ++
          modelLabel ++ ")."]
      else [])
    let ack := String.intercalate " " parts
    match mutated with
    | some e3 =>
      { userText := some (if ack = "" then "OK." else ack)
        turnContinues := false
        thinkLevel := if shouldDowngrade then some "high" else nextThink
        entry? := some e3
        store := Store.set store sessionKey e3
        persisted := hasStorePath }
    | none =>
      { userText := some (if ack = "" then "OK." else ack)
        turnContinues := false
        thinkLevel := if shouldDowngrade then some "high" else nextThink
        entry? := entry?
        store := store
        persisted := false }

/-! ## Fuzzy model resolution (auto-reply/reply/model-selection.ts) -/

/-- JavaScript `haystack.includes(needle)`. -/
def strIncludes (hay needle : String) : Bool :=
  decide (needle.toList <:+: hay.toList)

/-- Modelled from the spec: `normalizeProviderId` (agents model-selection
module, outside the corpus) canonicalizes a provider id; modelled as
lowercasing. -/
def normalizeProviderId (p : String) : String := jsToLower p

/-- Modelled from the spec: `modelKey` (agents model-selection module,
outside the corpus) builds the allow-list membership key for a
provider/model pair; modelled as the lowercased `provider/model` string. -/
def modelKey (provider model : String) : String :=
  (normalizeProviderId provider) ++ "/" ++ jsToLower model

structure ModelRef where
  provider : String
  model : String
  deriving Repr, DecidableEq

/-- The alias index consumed by model resolution: alias name → reference,
and model key → alias names. -/
structure ModelAliasIndex where
  byAlias : List (String × ModelRef) := []
  byKey : List (String × List String) := []
  deriving Repr, DecidableEq

def lookupAliasesForKey (idx : ModelAliasIndex) (k : String) : List String :=
  ((idx.byKey.find? (fun kv => kv.1 = k)).map (·.2)).getD []

def lookupByAlias (idx : ModelAliasIndex) (a : String) : Option ModelRef :=
  (idx.byAlias.find? (fun kv => kv.1 = a)).map (·.2)

def FUZZY_VARIANT_TOKENS : List String :=
  ["lightning", "preview", "mini", "fast", "turbo", "lite", "beta", "small", "nano"]

/-- The inner `scoreFragment` closure: the maximum applicable weight among
exact / starts-with / substring matches (0 for an empty fragment). -/
def scoreFragment (fragment value : String) (exactW startsW includesW : Int) : Int :=
  if fragment = "" then 0
  else
    let s1 : Int := if value = fragment then exactW else 0
    let s2 : Int := max s1 (if jsStartsWith value fragment then startsW else 0)
    max s2 (if strIncludes value fragment then includesW else 0)

structure FuzzyScore where
  score : Int
  isDefault : Bool
  variantCount : Nat
  variantMatchCount : Nat
  modelLength : Nat
  key : String
  deriving Repr, DecidableEq

/-- `scoreFuzzyMatch`: weighted scoring of one candidate against the
fragment — full `provider/model` haystack, provider alone, model alone and
aliases; a bonus when the model name embeds the provider name; variant-token
bonuses and penalties; a default-model bonus. -/
def scoreFuzzyMatch (provider model fragment : String) (aliasIndex : ModelAliasIndex)
    (defaultProvider defaultModel : String) : FuzzyScore :=
  let providerN := normalizeProviderId provider
  let frag := jsToLower (jsTrim fragment)
  let providerLower := jsToLower providerN
  let modelLower := jsToLower model
  let haystack := providerLower ++ "/" ++ modelLower
  let key := modelKey providerN model
  let score := scoreFragment frag haystack 220 140 110
    + scoreFragment frag providerLower 180 120 90
    + scoreFragment frag modelLower 160 110 80
  let aliases := lookupAliasesForKey aliasIndex key
  let score := aliases.foldl (fun acc a => acc + scoreFragment frag (jsToLower a) 140 90 60) score
  let score := score + (if jsStartsWith modelLower providerLower then (30 : Int) else 0)
  let fragmentVariants := FUZZY_VARIANT_TOKENS.filter (fun tk => strIncludes frag tk)
  let modelVariants := FUZZY_VARIANT_TOKENS.filter (fun tk => strIncludes modelLower tk)
  let variantMatchCount := (fragmentVariants.filter (fun tk => strIncludes modelLower tk)).length
  let variantCount := modelVariants.length
  let score :=
    if fragmentVariants.length = 0 ∧ variantCount > 0 then
      score - (variantCount : Int) * 30
    else if fragmentVariants.length > 0 then
      let s := if variantMatchCount > 0 then score + (variantMatchCount : Int) * 40 else score
      if variantMatchCount = 0 then s - 20 else s
    else score
  let isDefault := providerN = normalizeProviderId defaultProvider ∧ model = defaultModel
  let score := if isDefault then score + 20 else score
  { score := score
    isDefault := isDefault
    variantCount := variantCount
    variantMatchCount := variantMatchCount
    modelLength := modelLower.length
    key := key }

/-- The selection payload of a resolved model directive. -/
structure ModelDirectiveSelection where
  provider : String
  model : String
  isDefault : Bool
  aliasName : Option String := none
  deriving Repr, DecidableEq

/-- Outcome shape of `resolveModelDirectiveSelection`
(`{ selection?, error? }`; both empty when fuzzy matching found nothing). -/
structure ModelResolutionResult where
  selection : Option ModelDirectiveSelection := none
  errorText : Option String := none
  deriving Repr, DecidableEq

/-- Position of the first `/` in the string (`indexOf("/")`). -/
def firstSlashIdx (s : String) : Option Nat :=
  s.toList.findIdx? (· = '/')

def sliceBefore (s : String) (i : Nat) : String := String.mk (s.toList.take i)

def sliceAfter (s : String) (i : Nat) : String := String.mk (s.toList.drop (i + 1))

/-- Modelled from the spec: `resolveModelRefFromString` (agents
model-selection module, outside the corpus).  Per §4.4 a model directive
accepts an exact `provider/model` reference or a configured alias; any other
string is left to fuzzy-fragment resolution (`null`).  Returns the reference
and, for an alias hit, the alias name. -/
def resolveModelRefFromString (raw : String) (aliasIndex : ModelAliasIndex) :
    Option (ModelRef × Option String) :=
  let trimmed := jsTrim raw
  if trimmed = "" then none
  else
    match lookupByAlias aliasIndex (jsToLower trimmed) with
    | some r => some (r, some trimmed)
    | none =>
      match firstSlashIdx trimmed with
      | some i =>
        if i = 0 then none
        else some
          ({ provider := normalizeProviderId (sliceBefore trimmed i),
             model := sliceAfter trimmed i }, none)
      | none => none

/-- The JavaScript comparator of the fuzzy-score sort, as a
keep-`a`-before-`b` boolean: higher score first, then default, then more
variant matches, fewer variant tokens, shorter model name, and key order. -/
def fuzzyBefore (a b : FuzzyScore) : Bool :=
  if a.score ≠ b.score then a.score > b.score
  else if a.isDefault ≠ b.isDefault then a.isDefault
  else if a.variantMatchCount ≠ b.variantMatchCount then a.variantMatchCount > b.variantMatchCount
  else if a.variantCount ≠ b.variantCount then a.variantCount < b.variantCount
  else if a.modelLength ≠ b.modelLength then a.modelLength < b.modelLength
  else a.key ≤ b.key

/-- `buildSelection`: attach the first alias registered for the key. -/
def buildSelection (aliasIndex : ModelAliasIndex) (defaultProvider defaultModel : String)
    (provider model : String) : ModelDirectiveSelection :=
  { provider := provider
    model := model
    isDefault := provider = defaultProvider ∧ model = defaultModel
    aliasName := (lookupAliasesForKey aliasIndex (modelKey provider model)).head? }

/-- The `resolveFuzzy` closure: collect allow-listed candidates whose
haystack or model name contains the fragment (plus alias matches when no
provider filter is given), short-circuit a unique candidate, otherwise score
and sort. -/
def resolveFuzzy (aliasIndex : ModelAliasIndex) (defaultProvider defaultModel : String)
    (allowedModelKeys : List String) (providerFilter : Option String)
    (fragmentRaw : String) : Option ModelDirectiveSelection :=
  let fragment := jsToLower (jsTrim fragmentRaw)
  if fragment = "" then none
  else
    let fromKeys := allowedModelKeys.filterMap (fun key =>
      match firstSlashIdx key with
      | some i =>
        if i = 0 then none
        else
          let provider := normalizeProviderId (sliceBefore key i)
          let model := sliceAfter key i
          match providerFilter with
          | some pf =>
            if provider ≠ normalizeProviderId pf then none
            else
              let haystack := jsToLower (provider ++ "/" ++ model)
              if strIncludes haystack fragment ∨ strIncludes (jsToLower model) fragment then
                some (provider, model)
              else none
          | none =>
            let haystack := jsToLower (provider ++ "/" ++ model)
            if strIncludes haystack fragment ∨ strIncludes (jsToLower model) fragment then
              some (provider, model)
            else none
      | none => none)
    let aliasAdds :=
      match providerFilter with
      | some _ => []
      | none =>
        (aliasIndex.byAlias.filterMap (fun kv =>
          if strIncludes kv.1 fragment then some (kv.2.provider, kv.2.model) else none)).filter
          (fun m =>
            allowedModelKeys.contains (modelKey m.1 m.2) &&
            !(fromKeys.any (fun c => c.1 = m.1 ∧ c.2 = m.2)))
    let candidates := fromKeys ++ aliasAdds
    match candidates with
    | [c] => some (buildSelection aliasIndex defaultProvider defaultModel c.1 c.2)
    | [] => none
    | _ =>
      let scored := candidates.map (fun c =>
        (c, scoreFuzzyMatch c.1 c.2 fragment aliasIndex defaultProvider defaultModel))
      let sorted := scored.mergeSort (fun a b => fuzzyBefore a.2 b.2)
      (sorted.head?).map (fun best =>
        buildSelection aliasIndex defaultProvider defaultModel best.1.1 best.1.2)

/-- `resolveModelDirectiveSelection`: exact/alias resolution first; a
reference outside a non-empty allow-list falls back to provider-scoped then
global fuzzy matching; an unresolvable raw string falls back to global fuzzy
matching; remaining failures produce the two error messages. -/
def resolveModelDirectiveSelection (raw defaultProvider defaultModel : String)
    (aliasIndex : ModelAliasIndex) (allowedModelKeys : List String) :
    ModelResolutionResult :=
  let rawTrimmed := jsTrim raw
  let rawLower := jsToLower rawTrimmed
  match resolveModelRefFromString rawTrimmed aliasIndex with
  | none =>
    match resolveFuzzy aliasIndex defaultProvider defaultModel allowedModelKeys none rawTrimmed with
    | some sel => { selection := some sel }
    | none =>
      { errorText := some ("Unrecognized model \"" ++ rawTrimmed ++
          "\". Use /model to list available models.") }
  | some (ref, aliasHit) =>
    let resolvedKey := modelKey ref.provider ref.model
    if allowedModelKeys.length = 0 ∨ allowedModelKeys.contains resolvedKey then
      { selection := some
          { provider := ref.provider
            model := ref.model
            isDefault := ref.provider = defaultProvider ∧ ref.model = defaultModel
            aliasName := aliasHit } }
    else
      let providerScoped :=
        if strIncludes rawLower "/" then
          match firstSlashIdx rawTrimmed with
          | some i =>
            resolveFuzzy aliasIndex defaultProvider defaultModel allowedModelKeys
              (some (normalizeProviderId (jsTrim (sliceBefore rawTrimmed i))))
              (jsTrim (sliceAfter rawTrimmed i))
          | none => none
        else none
      match providerScoped with
      | some sel => { selection := some sel }
      | none =>
        match resolveFuzzy aliasIndex defaultProvider defaultModel allowedModelKeys none
            rawTrimmed with
        | some sel => { selection := some sel }
        | none =>
          { errorText := some ("Model \"" ++ ref.provider ++ "/" ++ ref.model ++
              "\" is not allowed. Use /model to list available models.") }


/-! ## Shared helper lemmas and fixtures -/

/-- `skipCache: true` reads the disk and leaves the state untouched. -/
theorem loadSessionStore_skip (st : FsState) :
    loadSessionStore st true = (loadSessionStoreDisk st.file, st) := rfl

/-- `loadSessionStore` neither reads nor writes the lock marker: changing
`lockHeld` changes nothing else in its result. -/
theorem loadSessionStore_lockIrrel (st : FsState) (b sc : Bool) :
    loadSessionStore { st with lockHeld := b } sc =
      ((loadSessionStore st sc).1, { (loadSessionStore st sc).2 with lockHeld := b }) := by
  unfold loadSessionStore loadFromDiskAndCache
  by_cases h1 : (!sc && st.cacheEnabled) = true
  · simp only [h1]
    cases hc : st.cache with
    | none => simp
    | some cached =>
      by_cases h2 : st.now - cached.loadedAt ≤ st.cacheTtlMs
      · by_cases h3 : st.mtimeMs = cached.mtimeMs
        · simp [h2, h3, hc]
        · simp [h2, h3]
      · simp [h2]
  · simp only [h1]
    simp

/-- `loadSessionStore` does not advance the clock. -/
theorem loadSessionStore_now (st : FsState) (sc : Bool) :
    (loadSessionStore st sc).2.now = st.now := by
  unfold loadSessionStore loadFromDiskAndCache
  by_cases h1 : (!sc && st.cacheEnabled) = true
  · simp only [h1]
    cases hc : st.cache with
    | none => simp
    | some cached =>
      by_cases h2 : st.now - cached.loadedAt ≤ st.cacheTtlMs
      · by_cases h3 : st.mtimeMs = cached.mtimeMs
        · simp [h2, h3]
        · simp [h2, h3]
      · simp [h2]
  · simp only [h1]
    simp

/-- The identity mutator `(store) => store` of the round-trip property. -/
def identityMutator : Store → Except String (Unit × Store) := fun s => .ok ((), s)

/-- A record map conforming to the current schema: no entry still carries
the legacy `provider`/`lastProvider` field names. -/
def ValidStore (m : Store) : Prop :=
  ∀ kv ∈ m, kv.2.provider = none ∧ kv.2.lastProvider = none

/-- The read-time migration is the identity on schema-conforming entries. -/
theorem migrateEntry_valid (e : SessionEntry) (h1 : e.provider = none)
    (h2 : e.lastProvider = none) : migrateEntry e = e := by
  unfold migrateEntry
  cases hc : e.channel <;> cases hl : e.lastChannel <;> simp [h1, h2, hc, hl]

theorem mapMigrate_valid (m : Store) (hv : ValidStore m) :
    m.map (fun kv => (kv.1, migrateEntry kv.2)) = m := by
  induction m with
  | nil => rfl
  | cons kv rest ih =>
    have h := hv kv (List.mem_cons_self _ _)
    simp only [List.map_cons]
    rw [migrateEntry_valid kv.2 h.1 h.2]
    rw [ih (fun x hx => hv x (List.mem_cons_of_mem _ hx))]

theorem string_append_ne_empty (a b : String) (h : a ≠ "") : a ++ b ≠ "" := by
  intro hc
  apply h
  obtain ⟨da⟩ := a
  obtain ⟨db⟩ := b
  have h2 : da ++ db = [] := by
    have := congrArg String.data hc
    simpa [String.data, HAppend.hAppend, String.append] using this
  rcases List.append_eq_nil.mp h2 with ⟨h3, _⟩
  simp [h3]

/-- Parameters of a plain direct-chat inbound turn: no reset trigger
configured, no thread/parent context. -/
def plainInitParams (k : String) (idle : Int) (uuid : String) (now : Int) : InitParams :=
  { resetTriggers := [], resetAuthorized := true, trimmedBody := "",
    strippedForReset := "", sessionKey := k, idleThresholdMs := idle,
    newUuid := uuid, now := now }

/-- A contender that keeps the marker present and freshly touched: at
attempt `n` (elapsed `25 n` ms, all iterations sleeping) the marker's mtime
equals the current time, so its age is 0 and it is never evicted as stale. -/
def freshHeldEnv (n : Nat) : LockObs := LockObs.held (25 * (n : Int))

/-- A crashed holder: the marker exists at attempt 0 with an mtime far in
the past (age 30001 ms > staleMs); once evicted, the path is free. -/
def staleEnv (n : Nat) : LockObs :=
  if n = 0 then LockObs.held (-30001) else LockObs.free

/-- The entry held by the process-local read cache in the C1 scenario. -/
def cachedEntryC1 : SessionEntry := { sessionId := "cached-copy", updatedAt := 1 }

/-- The entry actually on disk in the C1 scenario. -/
def diskEntryC1 : SessionEntry := { sessionId := "disk-copy", updatedAt := 2 }

/-- A state whose read cache holds a valid, mtime-matching copy that
nevertheless differs from the file (e.g. an external rewrite within the
mtime granularity window): the store file holds `diskEntryC1` under `"k"`
while the unexpired cache holds `cachedEntryC1`. -/
def stC1 : FsState :=
  { file := FileContent.doc [("k", diskEntryC1)]
    mtimeMs := some 5
    cache := some { store := [("k", cachedEntryC1)], loadedAt := 100, mtimeMs := some 5 }
    lockHeld := false
    now := 100
    cacheEnabled := true
    cacheTtlMs := 45000 }

/-- A session entry carrying user overrides and compaction state, as the
reset scenarios start from. -/
def eOldC2 : SessionEntry :=
  { sessionId := "old-id", updatedAt := 0, systemSent := some true,
    abortedLastRun := some true, thinkingLevel := some "high",
    modelOverride := some "foo/bar", providerOverride := some "foo",
    compactionCount := some 3, label := some "my-label" }

/-- An authorized `/new` message on the key holding `eOldC2`. -/
def pC2 : InitParams :=
  { resetTriggers := ["/new"], resetAuthorized := true, trimmedBody := "/new",
    strippedForReset := "/new", sessionKey := "main", idleThresholdMs := 1000000,
    newUuid := "fresh-uuid", now := 500 }

/-- The `initSessionState` outcome of the `/new` reset on `eOldC2`. -/
def resetOutC2 : InitOutcome := initSessionTransition pC2 [("main", eOldC2)]

/-- A session record whose persisted thinking level is the highest tier. -/
def eXhighC6 : SessionEntry := { sessionId := "s", updatedAt := 0, thinkingLevel := some "xhigh" }

/-! ## Claim C1 -/

/-- C1 counterexample: `updateSessionStoreEntry` does NOT re-read the store
file bypassing the read cache.  In state `stC1` (valid, mtime-matching cache
entry differing from the file) its mutator is handed the cached copy
`cachedEntryC1`, while the cache-bypassing read the claim requires would
have produced `diskEntryC1`. -/
theorem updateSessionStoreEntry_reads_cache_counterexample :
    (updateSessionStoreEntry stC1 "k" (fun _ => Except.ok none)).1 =
      Except.ok (some cachedEntryC1) ∧
    (loadSessionStore stC1 true).1 = [("k", diskEntryC1)] ∧
    cachedEntryC1 ≠ diskEntryC1 := by
  refine ⟨rfl, rfl, by decide⟩

/-- C1 (amended): every persisted-state mutator (`updateSessionStore`,
`updateSessionStoreEntry`, `updateLastRoute`) acquires the cross-process
lock before its read-modify-write cycle, and a held lock blocks all three;
but only `updateSessionStore` re-reads the file bypassing the read cache
(`skipCache: true`) before invoking its mutator, while
`updateSessionStoreEntry` and `updateLastRoute` read under the lock through
the mtime-validated cache (`loadSessionStore` with no `skipCache`). -/
theorem locked_update_read_paths (st : FsState) :
    (st.lockHeld = false →
      (updateSessionStore st (fun s => Except.ok (s, s))).1 =
        Except.ok (loadSessionStoreDisk st.file) ∧
      (∀ k, (updateSessionStoreEntry st k (fun _ => Except.ok none)).1 =
        Except.ok (Store.find? (loadSessionStore st false).1 k)) ∧
      (∀ k c t2 a, (updateLastRoute st k c t2 a).1 =
        Except.ok (lastRouteNext (loadSessionStore st false).1 k c t2 a st.now))) ∧
    (st.lockHeld = true →
      updateSessionStore st (fun s => Except.ok (s, s)) =
        (Except.error "timeout acquiring session store lock", st) ∧
      (∀ k, updateSessionStoreEntry st k (fun _ => Except.ok none) =
        (Except.error "timeout acquiring session store lock", st)) ∧
      (∀ k c t2 a, updateLastRoute st k c t2 a =
        (Except.error "timeout acquiring session store lock", st))) := by
  constructor
  · intro h
    refine ⟨?_, ?_, ?_⟩
    · simp [updateSessionStore, withSessionStoreLock, h, loadSessionStore_skip]
    · intro k
      simp only [updateSessionStoreEntry, withSessionStoreLock, h, Bool.false_eq_true,
        if_false, loadSessionStore_lockIrrel]
      cases hf : Store.find? (loadSessionStore st false).1 k <;> simp [hf]
    · intro k c t2 a
      simp only [updateLastRoute, withSessionStoreLock, h, Bool.false_eq_true,
        if_false, loadSessionStore_lockIrrel]
      simp [loadSessionStore_now]
  · intro h
    refine ⟨?_, fun k => ?_, fun k c t2 a => ?_⟩ <;>
      simp [updateSessionStore, updateSessionStoreEntry, updateLastRoute,
        withSessionStoreLock, h]

/-- C1 witness: the amended theorem applied to the concrete state `stC1`. -/
theorem locked_update_read_paths_witness :
    (updateSessionStore stC1 (fun s => Except.ok (s, s))).1 =
      Except.ok (loadSessionStoreDisk stC1.file) ∧
    (updateSessionStoreEntry stC1 "k" (fun _ => Except.ok none)).1 =
      Except.ok (Store.find? (loadSessionStore stC1 false).1 "k") :=
  ⟨((locked_update_read_paths stC1).1 rfl).1,
   ((locked_update_read_paths stC1).1 rfl).2.1 "k"⟩

/-! ## Claim C2 -/

/-- C2 (code bug): a trigger-forced reset mints a new `sessionId`, clears
`systemSent`/`abortedLastRun` and resets `compactionCount` — but it does NOT
keep the persisted user overrides.  On the reset path `baseEntry` is
`undefined`, so the `sessionEntry` literal carries
`modelOverride`/`providerOverride`/`thinkingLevel`/... as properties with
value `undefined`, and the final spread
`{ ...store[sessionKey], ...sessionEntry }` overwrites the stored overrides
with `undefined` — despite the source comment "Preserve per-session
overrides while resetting compaction state on /new" and the spec's "NEVER
clear persisted user overrides".  The management `sessions.reset` likewise
builds its replacement record without `modelOverride`/`providerOverride`
(it keeps only thinking/verbose/reasoning and presentation fields).
Evaluation of both reset paths at the failing input `eOldC2`. -/
theorem reset_drops_overrides_at_failing_input :
    resetOutC2.isNewSession = true ∧
    resetOutC2.resetTriggered = true ∧
    resetOutC2.sessionId = "fresh-uuid" ∧
    (Store.find? resetOutC2.store "main").map (fun e => e.sessionId) = some "fresh-uuid" ∧
    (Store.find? resetOutC2.store "main").map (fun e => e.systemSent) = some (some false) ∧
    (Store.find? resetOutC2.store "main").map (fun e => e.abortedLastRun) = some (some false) ∧
    (Store.find? resetOutC2.store "main").map (fun e => e.compactionCount) = some (some 0) ∧
    (Store.find? resetOutC2.store "main").map (fun e => e.label) = some (some "my-label") ∧
    eOldC2.modelOverride = some "foo/bar" ∧
    (Store.find? resetOutC2.store "main").map (fun e => e.modelOverride) = some none ∧
    (Store.find? resetOutC2.store "main").map (fun e => e.providerOverride) = some none ∧
    (Store.find? resetOutC2.store "main").map (fun e => e.thinkingLevel) = some none ∧
    (sessionsResetMutator ["k"] "k" "mgmt-uuid" 9 [("k", eOldC2)]).1.sessionId = "mgmt-uuid" ∧
    (sessionsResetMutator ["k"] "k" "mgmt-uuid" 9 [("k", eOldC2)]).1.systemSent = some false ∧
    (sessionsResetMutator ["k"] "k" "mgmt-uuid" 9 [("k", eOldC2)]).1.abortedLastRun
      = some false ∧
    (sessionsResetMutator ["k"] "k" "mgmt-uuid" 9 [("k", eOldC2)]).1.thinkingLevel
      = some "high" ∧
    (sessionsResetMutator ["k"] "k" "mgmt-uuid" 9 [("k", eOldC2)]).1.modelOverride = none ∧
    (sessionsResetMutator ["k"] "k" "mgmt-uuid" 9 [("k", eOldC2)]).1.providerOverride = none := by
  decide

/-! ## Claim C3 -/

/-- C3: for every schema-valid record map persisted at a path, running the
locked update with the identity mutator and then loading the path returns a
map structurally equal to the original (and the file again holds exactly
that map). -/
theorem store_load_after_identity_update_roundtrip (st : FsState) (m : Store) (sc : Bool)
    (hlock : st.lockHeld = false) (hfile : st.file = FileContent.doc m)
    (hv : ValidStore m) :
    (updateSessionStore st identityMutator).1 = Except.ok () ∧
    ((updateSessionStore st identityMutator).2).file = FileContent.doc m ∧
    (loadSessionStore (updateSessionStore st identityMutator).2 sc).1 = m := by
  have hmap : m.map (fun kv => (kv.1, migrateEntry kv.2)) = m := mapMigrate_valid m hv
  refine ⟨?_, ?_, ?_⟩
  · simp [updateSessionStore, withSessionStoreLock, hlock, loadSessionStore,
      loadFromDiskAndCache, identityMutator]
  · simp [updateSessionStore, withSessionStoreLock, hlock, loadSessionStore,
      loadFromDiskAndCache, identityMutator, saveSessionStoreUnlocked,
      loadSessionStoreDisk, parseStoreFile, hfile, hmap]
  · simp [updateSessionStore, withSessionStoreLock, hlock, loadSessionStore,
      loadFromDiskAndCache, identityMutator, saveSessionStoreUnlocked,
      loadSessionStoreDisk, parseStoreFile, hfile, hmap]
    split <;> rfl

/-- C3 witness: the round trip at a concrete one-entry store. -/
theorem store_load_after_identity_update_roundtrip_witness :
    (loadSessionStore (updateSessionStore
      { file := FileContent.doc [("k", cachedEntryC1)], mtimeMs := some 1, cache := none,
        lockHeld := false, now := 7, cacheEnabled := false, cacheTtlMs := 0 }
      identityMutator).2 false).1 = [("k", cachedEntryC1)] :=
  (store_load_after_identity_update_roundtrip
    { file := FileContent.doc [("k", cachedEntryC1)], mtimeMs := some 1, cache := none,
      lockHeld := false, now := 7, cacheEnabled := false, cacheTtlMs := 0 }
    [("k", cachedEntryC1)] false rfl rfl (by simp [ValidStore, cachedEntryC1])).2.2

/-! ## Claim C4 -/

set_option maxRecDepth 8000

/-- C4 counterexample: against a holder that keeps the marker fresh, the
acquisition loop with its default options throws its timeout error only
once the elapsed wait exceeds `timeoutMs = 10_000` ms — at 10 025 ms on the
25 ms poll grid — which is not within single-digit seconds (strictly less
than 10 s). -/
theorem lock_timeout_not_single_digit_seconds :
    acquireLockLoop {} freshHeldEnv 0 450 0 0 = AcquireResult.timeout 10025 ∧
    ¬((10025 : Int) < 10000) ∧
    ({} : LockOpts).timeoutMs = 10000 := by
  refine ⟨by decide, by decide, rfl⟩

/-- C4 (amended): a lock marker whose age exceeds `staleMs` is unlinked and
acquisition retried immediately, so it succeeds (elapsed 0) once the path is
free, and an acquired lock lets the update run to success; if the lock stays
held and non-stale, the loop fails with the timeout error, but only after
the elapsed wait strictly exceeds `timeoutMs` (10 000 ms by default) — a
bounded total wait of just over ten seconds, not single-digit seconds. -/
theorem stale_lock_eviction_and_timeout_bound :
    (∀ (env : Nat → LockObs) (startedAt m : Int),
      env 0 = LockObs.held m → env 1 = LockObs.free →
      startedAt - m > ({} : LockOpts).staleMs →
      acquireLockLoop {} env startedAt 2 0 0 = AcquireResult.acquired 0) ∧
    (∀ (st : FsState) (g : Store → Store), st.lockHeld = false →
      (updateSessionStore st (fun s => Except.ok ((), g s))).1 = Except.ok ()) ∧
    (∀ (opts : LockOpts) (env : Nat → LockObs) (startedAt : Int) (fuel n : Nat) (t e : Int),
      acquireLockLoop opts env startedAt fuel n t = AcquireResult.timeout e →
      e > opts.timeoutMs) := by
  refine ⟨?_, ?_, ?_⟩
  · intro env startedAt m h0 h1 hstale
    have hto : ¬((0 : Int) > ({} : LockOpts).timeoutMs) := by decide
    have hst : startedAt + 0 - m > ({} : LockOpts).staleMs := by simpa using hstale
    unfold acquireLockLoop
    rw [h0]
    dsimp only
    rw [if_neg hto, if_pos hst]
    unfold acquireLockLoop
    rw [h1]
  · intro st g h
    simp [updateSessionStore, withSessionStoreLock, h, loadSessionStore_skip]
  · intro opts env startedAt fuel
    induction fuel with
    | zero =>
      intro n t e h
      simp [acquireLockLoop] at h
    | succ f ih =>
      intro n t e h
      unfold acquireLockLoop at h
      rcases henv : env n with _ | _ | m | _ <;> rw [henv] at h <;> dsimp only at h
      · simp at h
      · exact ih _ _ _ h
      · split at h
        · cases h
          assumption
        · split at h
          · exact ih _ _ _ h
          · exact ih _ _ _ h
      · split at h
        · cases h
          assumption
        · exact ih _ _ _ h

/-- C4 witness: the amended theorem applied to the crashed-holder
environment `staleEnv`, to a concrete unlocked state, and to the concrete
timeout run against `freshHeldEnv`. -/
theorem stale_lock_eviction_and_timeout_bound_witness :
    acquireLockLoop {} staleEnv 0 2 0 0 = AcquireResult.acquired 0 ∧
    (updateSessionStore
      { file := FileContent.absent, mtimeMs := none, cache := none, lockHeld := false,
        now := 0, cacheEnabled := false, cacheTtlMs := 0 }
      (fun s => Except.ok ((), s))).1 = Except.ok () ∧
    (10025 : Int) > ({} : LockOpts).timeoutMs :=
  ⟨stale_lock_eviction_and_timeout_bound.1 staleEnv 0 (-30001) rfl rfl (by decide),
   stale_lock_eviction_and_timeout_bound.2.1 _ (fun s => s) rfl,
   stale_lock_eviction_and_timeout_bound.2.2 {} freshHeldEnv 0 450 0 0 10025 (by decide)⟩

/-! ## Claim C5 -/

/-- C5: a record is judged fresh exactly when `now - updatedAt <= threshold`
(the resolved idle threshold); at the boundary, a record one millisecond
beyond the threshold is stale and a new session id is minted, while a record
one millisecond inside it is fresh and the stored session id is reused. -/
theorem session_freshness_boundary (store0 : Store) (k uuid : String) (e : SessionEntry)
    (idle now : Int) (hfind : Store.find? store0 k = some e) :
    (∀ u : Int, evaluateSessionFreshness u now idle = true ↔ now - u ≤ idle) ∧
    (e.updatedAt = now - idle - 1 →
      (initSessionTransition (plainInitParams k idle uuid now) store0).isNewSession = true ∧
      (initSessionTransition (plainInitParams k idle uuid now) store0).sessionId = uuid) ∧
    (e.updatedAt = now - idle + 1 →
      (initSessionTransition (plainInitParams k idle uuid now) store0).isNewSession = false ∧
      (initSessionTransition (plainInitParams k idle uuid now) store0).sessionId
        = e.sessionId) := by
  refine ⟨?_, ?_, ?_⟩
  · intro u
    simp [evaluateSessionFreshness]
  · intro hstale
    have hfr : evaluateSessionFreshness e.updatedAt now idle = false := by
      simp [evaluateSessionFreshness, hstale]
      omega
    constructor <;>
      simp [initSessionTransition, plainInitParams, scanResetTriggers, hfind, hfr, decideSession]
  · intro hfresh
    have hfr : evaluateSessionFreshness e.updatedAt now idle = true := by
      simp [evaluateSessionFreshness, hfresh]
      omega
    constructor <;>
      simp [initSessionTransition, plainInitParams, scanResetTriggers, hfind, hfr, decideSession]

/-- C5 witness: the boundary at threshold 100 ms and now = 1000: an entry
updated at 899 is stale (new id minted), one updated at 901 is fresh (id
kept). -/
theorem session_freshness_boundary_witness :
    (initSessionTransition (plainInitParams "k" 100 "new-uuid" 1000)
      [("k", { sessionId := "keep-id", updatedAt := 899 })]).isNewSession = true ∧
    (initSessionTransition (plainInitParams "k" 100 "new-uuid" 1000)
      [("k", { sessionId := "keep-id", updatedAt := 901 })]).sessionId = "keep-id" :=
  ⟨((session_freshness_boundary [("k", { sessionId := "keep-id", updatedAt := 899 })]
      "k" "new-uuid" { sessionId := "keep-id", updatedAt := 899 } 100 1000
      (by decide)).2.1 (by decide)).1,
   ((session_freshness_boundary [("k", { sessionId := "keep-id", updatedAt := 901 })]
      "k" "new-uuid" { sessionId := "keep-id", updatedAt := 901 } 100 1000
      (by decide)).2.2 (by decide)).2⟩

/-! ## Claim C6 -/

/-- C6 counterexample: in the message flow (`runPreparedReply`), a session
whose persisted thinking level is `xhigh` on a model that does not support
it is downgraded to `high` and the downgrade persisted, but NO user-visible
text is produced — the downgrade is not surfaced, contrary to the claim. -/
theorem xhigh_downgrade_silent_in_message_flow :
    (xhighMessageStep false "GPT-5.2 or Codex models" (some "xhigh") false
      (some eXhighC6) true "k" true 42 [("k", eXhighC6)]).thinkLevel = some "high" ∧
    (xhighMessageStep false "GPT-5.2 or Codex models" (some "xhigh") false
      (some eXhighC6) true "k" true 42 [("k", eXhighC6)]).persisted = true ∧
    ((xhighMessageStep false "GPT-5.2 or Codex models" (some "xhigh") false
      (some eXhighC6) true "k" true 42 [("k", eXhighC6)]).entry?.bind
        (fun e => e.thinkingLevel)) = some "high" ∧
    (xhighMessageStep false "GPT-5.2 or Codex models" (some "xhigh") false
      (some eXhighC6) true "k" true 42 [("k", eXhighC6)]).userText = none := by
  decide

/-- C6 (amended): when the effective thinking level is `xhigh` but the
resolved provider/model does not support it, an explicitly requested tier is
rejected with an error message and no level change persisted (both flows);
otherwise the level is downgraded one tier to `high` and the downgrade
persisted to the session record — surfaced to the user in the
directive-only flow, but applied silently (no user text) in the
prepared-reply message flow. -/
theorem xhigh_unsupported_handling
    (hint providerLabel modelLabel sessionKey : String) (now : Int) (store : Store)
    (e : SessionEntry) (entry? : Option SessionEntry) (currentThinkLevel : Option String)
    (hkey : sessionKey ≠ "") (hx : e.thinkingLevel = some "xhigh") :
    (let r1 := xhighMessageStep false hint (some "xhigh") true entry? true sessionKey true
        now store;
      r1.userText = some ("Thinking level \"xhigh\" is only supported for " ++ hint ++
        ". Use /think high or switch to one of those models.") ∧
      r1.turnContinues = false ∧ r1.store = store ∧ r1.persisted = false ∧
      r1.entry? = entry?) ∧
    (let r2 := xhighMessageStep false hint (some "xhigh") false (some e) true sessionKey true
        now store;
      r2.thinkLevel = some "high" ∧ r2.userText = none ∧ r2.persisted = true ∧
      r2.entry? = some { e with thinkingLevel := some "high", updatedAt := now } ∧
      r2.store =
        Store.set store sessionKey { e with thinkingLevel := some "high", updatedAt := now }) ∧
    (let r3 := xhighDirectiveStep false hint true (some "xhigh") currentThinkLevel entry? true
        sessionKey true now store providerLabel modelLabel;
      r3.userText = some ("Thinking level \"xhigh\" is only supported for " ++ hint ++ ".") ∧
      r3.store = store ∧ r3.persisted = false ∧ r3.entry? = entry?) ∧
    (let r4 := xhighDirectiveStep false hint false none currentThinkLevel (some e) true
        sessionKey true now store providerLabel modelLabel;
      r4.persisted = true ∧
      r4.entry? = some { e with thinkingLevel := some "high", updatedAt := now } ∧
      r4.thinkLevel = some "high" ∧
      r4.userText = some ("Thinking level set to high (xhigh not supported for " ++
        providerLabel ++ "/" ++ modelLabel ++ ").")) := by
  refine ⟨?_, ?_, ?_, ?_⟩
  · simp [xhighMessageStep]
  · simp [xhighMessageStep, hkey, hx]
  · simp [xhighDirectiveStep]
  · have hne : ("Thinking level set to high (xhigh not supported for " ++
        providerLabel ++ "/" ++ modelLabel ++ ").") ≠ "" := by
      apply string_append_ne_empty
      apply string_append_ne_empty
      apply string_append_ne_empty
      apply string_append_ne_empty
      decide
    simp [xhighDirectiveStep, hkey, hx, String.intercalate, String.intercalate.go, hne]

/-- C6 witness: the amended theorem at a concrete session, hint and model
labels. -/
theorem xhigh_unsupported_handling_witness :
    (xhighDirectiveStep false "GPT-5.2 or Codex models" false none none (some eXhighC6) true
      "k" true 42 [] "openai" "gpt-5").userText =
      some ("Thinking level set to high (xhigh not supported for " ++
        "openai" ++ "/" ++ "gpt-5" ++ ").") :=
  ((xhigh_unsupported_handling "GPT-5.2 or Codex models" "openai" "gpt-5" "k" 42 []
    eXhighC6 (some eXhighC6) none (by decide) rfl).2.2.2).2.2.2

/-! ## Claim C7 -/

/-- C7: with the allow-listed model set
`{"openai/gpt-5", "openai/gpt-5-mini"}` and the directive fragment
`"mini"`, fuzzy model resolution returns the selection
`openai/gpt-5-mini` — and, resolution being a pure function of these
inputs, every invocation with them yields this same result. -/
theorem fuzzy_mini_resolution_deterministic :
    resolveModelDirectiveSelection "mini" "openai" "gpt-5"
      { byAlias := [], byKey := [] } ["openai/gpt-5", "openai/gpt-5-mini"] =
    { selection := some
        { provider := "openai", model := "gpt-5-mini", isDefault := false, aliasName := none },
      errorText := none } := by
  decide

/-! ## Claim C8 -/

/-- C8: a delete request whose (trimmed) key equals the configured main
session key is rejected with a validation error before any store access,
leaving the state untouched; deleting any other existing key removes
exactly that record from the persisted map. -/
theorem sessions_delete_main_guard_and_exact_removal (st : FsState) (mainKey : String) :
    (∀ (key : String) (storeKeys : List String) (runActive : Bool),
      jsTrim key = mainKey → mainKey ≠ "" →
      handleSessionsDelete st mainKey storeKeys key runActive =
        (BridgeOutcome.invalid ("Cannot delete the main session (" ++ mainKey ++ ")."), st)) ∧
    (∀ (k : String) (m : Store) (e : SessionEntry),
      st.lockHeld = false → st.file = FileContent.doc m → ValidStore m →
      k ≠ "" → k ≠ mainKey → jsTrim k = k → (m.map Prod.fst).Nodup →
      Store.find? m k = some e →
      (handleSessionsDelete st mainKey [k] k false).1 = BridgeOutcome.ok (true, some e) ∧
      ((handleSessionsDelete st mainKey [k] k false).2).file =
        FileContent.doc (Store.erase m k) ∧
      Store.find? (Store.erase m k) k = none ∧
      (∀ j, j ≠ k → Store.find? (Store.erase m k) j = Store.find? m j)) := by
  constructor
  · intro key storeKeys runActive htrim hmain
    simp [handleSessionsDelete, htrim, hmain]
  · intro k m e hlock hfile hv hk hkm htrim hnd hfind
    have hmap : m.map (fun kv => (kv.1, migrateEntry kv.2)) = m := mapMigrate_valid m hv
    refine ⟨?_, ?_, Store.find?_erase_self m k hnd, fun j hj => Store.find?_erase_ne m k j hj⟩ <;>
      simp [handleSessionsDelete, htrim, hk, hkm, updateSessionStore, withSessionStoreLock,
        hlock, loadSessionStore, loadFromDiskAndCache, loadSessionStoreDisk, parseStoreFile,
        hfile, hmap, sessionsDeleteMutator, canonicalizeStoreKeys, hfind,
        saveSessionStoreUnlocked]

/-- C8 witness: the main-key guard and the exact removal at concrete
states. -/
theorem sessions_delete_main_guard_and_exact_removal_witness :
    handleSessionsDelete
      { file := FileContent.doc [("k", cachedEntryC1)], mtimeMs := some 1, cache := none,
        lockHeld := false, now := 7, cacheEnabled := false, cacheTtlMs := 0 }
      "agent:main:main" ["agent:main:main"] "agent:main:main" false =
      (BridgeOutcome.invalid "Cannot delete the main session (agent:main:main).",
        { file := FileContent.doc [("k", cachedEntryC1)], mtimeMs := some 1, cache := none,
          lockHeld := false, now := 7, cacheEnabled := false, cacheTtlMs := 0 }) ∧
    (handleSessionsDelete
      { file := FileContent.doc [("k", cachedEntryC1)], mtimeMs := some 1, cache := none,
        lockHeld := false, now := 7, cacheEnabled := false, cacheTtlMs := 0 }
      "agent:main:main" ["k"] "k" false).1 = BridgeOutcome.ok (true, some cachedEntryC1) := by
  constructor
  · exact ((sessions_delete_main_guard_and_exact_removal
      { file := FileContent.doc [("k", cachedEntryC1)], mtimeMs := some 1, cache := none,
        lockHeld := false, now := 7, cacheEnabled := false, cacheTtlMs := 0 }
      "agent:main:main").1 "agent:main:main" ["agent:main:main"] false (by decide) (by decide))
  · exact ((sessions_delete_main_guard_and_exact_removal
      { file := FileContent.doc [("k", cachedEntryC1)], mtimeMs := some 1, cache := none,
        lockHeld := false, now := 7, cacheEnabled := false, cacheTtlMs := 0 }
      "agent:main:main").2 "k" [("k", cachedEntryC1)] cachedEntryC1 rfl rfl
      (by simp [ValidStore, cachedEntryC1]) (by decide) (by decide) (by decide)
      (by decide) (by decide)).1

/-! ## Claim C9 -/

/-- C9: `loadSessionStore` is total (the missing-file and parse failures
are caught): an absent or corrupt store file loads as the empty map, and a
successfully parsed document is returned with the legacy migration applied
to every entry — an entry with no current-name field gets its
`provider`/`lastProvider` value moved to `channel`/`lastChannel` and the
legacy field removed. -/
theorem load_absent_corrupt_migration (st : FsState) (sc : Bool) (hc : st.cache = none) :
    ((st.file = FileContent.absent ∨ st.file = FileContent.corrupt) →
      (loadSessionStore st sc).1 = []) ∧
    (∀ s : Store, st.file = FileContent.doc s →
      (loadSessionStore st sc).1 = s.map (fun kv => (kv.1, migrateEntry kv.2))) ∧
    (∀ e : SessionEntry, e.channel = none →
      (migrateEntry e).channel = e.provider ∧ (migrateEntry e).provider = none) ∧
    (∀ e : SessionEntry, e.lastChannel = none → e.channel.isSome →
      (migrateEntry e).lastChannel = e.lastProvider ∧ (migrateEntry e).lastProvider = none) := by
  refine ⟨?_, ?_, ?_, ?_⟩
  · rintro (h | h) <;>
      simp [loadSessionStore, loadFromDiskAndCache, loadSessionStoreDisk, parseStoreFile,
        h, hc] <;>
      split <;> rfl
  · intro s h
    simp [loadSessionStore, loadFromDiskAndCache, loadSessionStoreDisk, parseStoreFile, h, hc]
    split <;> rfl
  · intro e h
    cases hp : e.provider <;> cases hl : e.lastChannel <;> cases hlp : e.lastProvider <;>
      simp [migrateEntry, h, hp, hl, hlp]
  · intro e h hcs
    cases hp : e.lastProvider <;> cases hch : e.channel <;>
      simp [migrateEntry, h, hp, hch] <;> simp_all

/-- C9 witness: an absent file loads as the empty map, and a legacy entry is
renamed in place. -/
theorem load_absent_corrupt_migration_witness :
    (loadSessionStore
      { file := FileContent.absent, mtimeMs := none, cache := none, lockHeld := false,
        now := 0, cacheEnabled := true, cacheTtlMs := 45000 } false).1 = [] ∧
    (migrateEntry { sessionId := "a", updatedAt := 0, provider := some "telegram" }).channel
      = some "telegram" :=
  ⟨(load_absent_corrupt_migration
      { file := FileContent.absent, mtimeMs := none, cache := none, lockHeld := false,
        now := 0, cacheEnabled := true, cacheTtlMs := 45000 } false rfl).1 (Or.inl rfl),
   ((load_absent_corrupt_migration
      { file := FileContent.absent, mtimeMs := none, cache := none, lockHeld := false,
        now := 0, cacheEnabled := true, cacheTtlMs := 45000 } false rfl).2.2.1
      { sessionId := "a", updatedAt := 0, provider := some "telegram" } rfl).1⟩

/-! ## Claim C10 -/

/-- C10: when the mutator throws, the locked update is atomic and
non-poisoning: the error propagates, the store file is not written (a
subsequent load returns the same map as before), the lock marker is removed
on the error path, and a subsequent update on the same path acquires the
lock and succeeds. -/
theorem failed_mutator_atomic_and_lock_released (st : FsState) (err : String)
    (hlock : st.lockHeld = false) :
    (updateSessionStore st (fun _ => (Except.error err : Except String (Unit × Store)))).1 =
      Except.error err ∧
    ((updateSessionStore st (fun _ =>
        (Except.error err : Except String (Unit × Store)))).2).file = st.file ∧
    ((updateSessionStore st (fun _ =>
        (Except.error err : Except String (Unit × Store)))).2).lockHeld = false ∧
    (∀ sc, (loadSessionStore ((updateSessionStore st (fun _ =>
        (Except.error err : Except String (Unit × Store)))).2) sc).1 =
      (loadSessionStore st sc).1) ∧
    (∀ (g : Store → Store),
      (updateSessionStore ((updateSessionStore st (fun _ =>
          (Except.error err : Except String (Unit × Store)))).2)
        (fun s => Except.ok ((), g s))).1 = Except.ok ()) := by
  refine ⟨?_, ?_, ?_, ?_, ?_⟩ <;>
    simp [updateSessionStore, withSessionStoreLock, hlock, loadSessionStore_lockIrrel,
      loadSessionStore_skip]

/-- C10 witness: the theorem at a concrete one-entry store with a throwing
mutator. -/
theorem failed_mutator_atomic_and_lock_released_witness :
    (updateSessionStore
      { file := FileContent.doc [("k", diskEntryC1)], mtimeMs := some 1, cache := none,
        lockHeld := false, now := 7, cacheEnabled := false, cacheTtlMs := 0 }
      (fun _ => (Except.error "boom" : Except String (Unit × Store)))).1 =
      Except.error "boom" ∧
    ((updateSessionStore
      { file := FileContent.doc [("k", diskEntryC1)], mtimeMs := some 1, cache := none,
        lockHeld := false, now := 7, cacheEnabled := false, cacheTtlMs := 0 }
      (fun _ => (Except.error "boom" : Except String (Unit × Store)))).2).file =
      FileContent.doc [("k", diskEntryC1)] :=
  ⟨(failed_mutator_atomic_and_lock_released
      { file := FileContent.doc [("k", diskEntryC1)], mtimeMs := some 1, cache := none,
        lockHeld := false, now := 7, cacheEnabled := false, cacheTtlMs := 0 }
      "boom" rfl).1,
   (failed_mutator_atomic_and_lock_released
      { file := FileContent.doc [("k", diskEntryC1)], mtimeMs := some 1, cache := none,
        lockHeld := false, now := 7, cacheEnabled := false, cacheTtlMs := 0 }
      "boom" rfl).2.1⟩

end OpenClaw
